import Mathlib

/-!
Verification of the nova-taxi repository's two computable behaviours:
the fare estimator (`components/common/PriceCalculator.jsx`) and the
location resolver (`config/locations.js`, `app/ort/[slug]/page.js`,
`app/sitemap.js`, `app/api/seo/locations/route.js`).

JavaScript numbers are modelled as `JSNum`: exact rationals plus the
special values `NaN`, `+Infinity` and `-Infinity`.  The source never
exercises float rounding error in a way the spec depends on (the spec
states the algorithm in exact arithmetic), so finite values are `ℚ`;
the special values and their propagation through `+`, `*`, `/`,
`Math.round`, truthiness and `<=` follow the ECMAScript rules for the
cases that can arise here.  Signed zero is not distinguished (the code
never divides by zero on a reachable path).
-/

namespace NovaTaxi

/-- Model of a JavaScript number: `NaN`, the two infinities, or a finite
value represented exactly as a rational. -/
inductive JSNum where
  | nan : JSNum
  | posInf : JSNum
  | negInf : JSNum
  | num : ℚ → JSNum
deriving DecidableEq

/-- JavaScript falsiness of a number: `NaN` and `0` are falsy (used by the
`!distance` test in `handleSubmit`). -/
def jsFalsy : JSNum → Bool
  | .nan => true
  | .num q => decide (q = 0)
  | _ => false

/-- JavaScript `<=` on numbers: any comparison with `NaN` is false;
`-Infinity` is below everything, `+Infinity` above everything. -/
def jsLe : JSNum → JSNum → Bool
  | .nan, _ => false
  | _, .nan => false
  | .negInf, _ => true
  | _, .posInf => true
  | .posInf, _ => false
  | .num _, .negInf => false
  | .num a, .num b => decide (a ≤ b)

/-- JavaScript `+` on numbers (cases reachable in this code base):
`NaN` propagates, opposite infinities give `NaN`, an infinity absorbs a
finite operand, finite values add exactly. -/
def jsAdd : JSNum → JSNum → JSNum
  | .nan, _ => .nan
  | _, .nan => .nan
  | .posInf, .negInf => .nan
  | .negInf, .posInf => .nan
  | .posInf, _ => .posInf
  | _, .posInf => .posInf
  | .negInf, _ => .negInf
  | _, .negInf => .negInf
  | .num a, .num b => .num (a + b)

/-- JavaScript `*` on numbers: `NaN` propagates, an infinity times zero is
`NaN`, otherwise signs multiply; finite values multiply exactly. -/
def jsMul : JSNum → JSNum → JSNum
  | .nan, _ => .nan
  | _, .nan => .nan
  | .posInf, .posInf => .posInf
  | .posInf, .negInf => .negInf
  | .negInf, .posInf => .negInf
  | .negInf, .negInf => .posInf
  | .posInf, .num b => if 0 < b then .posInf else if b < 0 then .negInf else .nan
  | .num a, .posInf => if 0 < a then .posInf else if a < 0 then .negInf else .nan
  | .negInf, .num b => if 0 < b then .negInf else if b < 0 then .posInf else .nan
  | .num a, .negInf => if 0 < a then .negInf else if a < 0 then .posInf else .nan
  | .num a, .num b => .num (a * b)

/-- JavaScript `/` on numbers: `NaN` propagates, infinity over infinity is
`NaN`, an infinity over a finite value keeps the combined sign, a finite
value over an infinity is `0`, a finite value over `0` is a signed
infinity (or `NaN` for `0/0`), otherwise exact division. -/
def jsDiv : JSNum → JSNum → JSNum
  | .nan, _ => .nan
  | _, .nan => .nan
  | .posInf, .posInf => .nan
  | .posInf, .negInf => .nan
  | .negInf, .posInf => .nan
  | .negInf, .negInf => .nan
  | .posInf, .num b => if 0 < b then .posInf else if b < 0 then .negInf else .posInf
  | .negInf, .num b => if 0 < b then .negInf else if b < 0 then .posInf else .negInf
  | .num _, .posInf => .num 0
  | .num _, .negInf => .num 0
  | .num a, .num b =>
      if b = 0 then (if 0 < a then .posInf else if a < 0 then .negInf else .nan)
      else .num (a / b)

/-- `Math.round` on a finite value: nearest integer, half-way cases toward
`+Infinity`, i.e. `⌊q + 1/2⌋`. -/
def jsRound (q : ℚ) : ℤ := ⌊q + 1 / 2⌋

/-- `Math.round` lifted to `JSNum`: `NaN` and the infinities are returned
unchanged (ECMAScript), a finite value is rounded. -/
def jsRoundN : JSNum → JSNum
  | .nan => .nan
  | .posInf => .posInf
  | .negInf => .negInf
  | .num q => .num ((jsRound q : ℤ) : ℚ)

/-- `BASE_PRICE = 6.6` from `PriceCalculator.jsx` (Grundtaxe). -/
def BASE_PRICE : ℚ := 6.6

/-- `PRICE_PER_KM = 4.2` from `PriceCalculator.jsx` (Preis pro km). -/
def PRICE_PER_KM : ℚ := 4.2

/-- `NIGHT_SURCHARGE_FACTOR = 1.2` from `PriceCalculator.jsx`
(Nacht / Wochenende). -/
def NIGHT_SURCHARGE_FACTOR : ℚ := 1.2

/-- The computation performed by `handleSubmit` in `PriceCalculator.jsx`,
as a function of the two inputs it reads:
`if (!distance || distance <= 0) { setEstimatedPrice(null); return; }`,
then `price = BASE_PRICE + distance * PRICE_PER_KM`, conditionally
`price *= NIGHT_SURCHARGE_FACTOR`, and finally
`setEstimatedPrice(Math.round(price * 20) / 20)`.
`none` is the `null` ("no estimate") outcome. -/
def estimateJS (distance : JSNum) (isNight : Bool) : Option JSNum :=
  if jsFalsy distance || jsLe distance (.num 0) then none
  else
    let price := jsAdd (.num BASE_PRICE) (jsMul distance (.num PRICE_PER_KM))
    let price := if isNight then jsMul price (.num NIGHT_SURCHARGE_FACTOR) else price
    some (jsDiv (jsRoundN (jsMul price (.num 20))) (.num 20))

/-- The component state read and written by `handleSubmit`: the two form
inputs and the `estimatedPrice` display state. -/
structure CalcState where
  distance : JSNum
  isNight : Bool
  estimatedPrice : Option JSNum
deriving DecidableEq

/-- `handleSubmit` as a state transition on the component state: it
replaces `estimatedPrice` with the value computed from `distance` and
`isNight` (the guard writes `null`, the main path writes the rounded
price), leaving the inputs unchanged. -/
def handleSubmit (s : CalcState) : CalcState :=
  if jsFalsy s.distance || jsLe s.distance (.num 0) then
    { s with estimatedPrice := none }
  else
    let price := jsAdd (.num BASE_PRICE) (jsMul s.distance (.num PRICE_PER_KM))
    let price := if s.isNight then jsMul price (.num NIGHT_SURCHARGE_FACTOR) else price
    { s with estimatedPrice := some (jsDiv (jsRoundN (jsMul price (.num 20))) (.num 20)) }

/-- The raw (pre-rounding) price on the main path, in the order the code
computes it. -/
def rawPrice (q : ℚ) (isNight : Bool) : ℚ :=
  let p := BASE_PRICE + q * PRICE_PER_KM
  if isNight then p * NIGHT_SURCHARGE_FACTOR else p

/-- The finite value produced on the main path: raw price rounded to the
nearest multiple of `0.05`. -/
def estVal (q : ℚ) (isNight : Bool) : ℚ :=
  ((jsRound (rawPrice q isNight * 20) : ℤ) : ℚ) / 20

lemma handleSubmit_estimatedPrice (s : CalcState) :
    (handleSubmit s).estimatedPrice = estimateJS s.distance s.isNight := by
  unfold handleSubmit estimateJS
  split <;> rfl

lemma estimateJS_pos (q : ℚ) (isNight : Bool) (hq : 0 < q) :
    estimateJS (.num q) isNight = some (.num (estVal q isNight)) := by
  have hfalsy : jsFalsy (.num q) = false := by
    simp [jsFalsy, hq.ne']
  have hle : jsLe (.num q) (.num 0) = false := by
    simp [jsLe, not_le.2 hq]
  unfold estimateJS
  rw [hfalsy, hle]
  simp only [Bool.or_self, if_false]
  cases isNight <;>
    simp [jsAdd, jsMul, jsDiv, jsRoundN, estVal, rawPrice]

/-- A value record of the `locations` object in `config/locations.js`
(the slug is the key of the object, not a field of the record). -/
structure LocationRecord where
  title : String
  metaDescription : String
  h1 : String
  intro : String
  highlightPoints : List String
deriving DecidableEq

/-- The `"arth-goldau"` entry of `locations`. -/
def arthGoldauRecord : LocationRecord :=
  { title := "Taxi Arth-Goldau | Nova Taxi"
    metaDescription := "Nova Taxi – Ihr moderner Taxi-Service in Arth-Goldau. Pünktliche Fahrten, Flughafentransfers und Businessfahrten in der ganzen Zentralschweiz."
    h1 := "Taxi in Arth-Goldau"
    intro := "Mit Nova Taxi erreichen Sie Arth-Goldau, Luzern, Zug und den Flughafen Zürich komfortabel und zuverlässig – rund um die Uhr."
    highlightPoints :=
      [ "24/7 verfügbar – auch nachts und an Wochenenden"
      , "Direkte Verbindung zum Bahnhof Arth-Goldau und zu den umliegenden Gemeinden"
      , "Komfortable Fahrzeuge mit viel Platz für Gepäck" ] }

/-- The `luzern` entry of `locations`. -/
def luzernRecord : LocationRecord :=
  { title := "Taxi Luzern | Nova Taxi"
    metaDescription := "Nova Taxi – moderner Taxi-Service in Luzern. Flughafentransfer, Stadtfahrten, Hoteltransfers und mehr – zuverlässig und pünktlich."
    h1 := "Taxi in Luzern"
    intro := "Ob Altstadt, Bahnhof oder Seeufer – Nova Taxi bringt Sie in Luzern sicher und entspannt ans Ziel."
    highlightPoints :=
      [ "Schnelle Abholung im Raum Luzern"
      , "Direkte Flughafentransfers nach Zürich und Basel"
      , "Ideale Lösung für Geschäfts- und Privatkunden" ] }

/-- The `zug` entry of `locations`. -/
def zugRecord : LocationRecord :=
  { title := "Taxi Zug | Nova Taxi"
    metaDescription := "Nova Taxi – zuverlässiger Taxi-Service in Zug. Businessfahrten, Flughafentransfer und individuelle Fahrten in der ganzen Region."
    h1 := "Taxi in Zug"
    intro := "Für Geschäfts- und Privatkunden in Zug – Nova Taxi verbindet Sie mit Flughafen, Meetings und Nachbarorten."
    highlightPoints :=
      [ "Diskrete Businessfahrten"
      , "Planbare Transfers zu Flughäfen und Bahnhöfen"
      , "Komfortable Fahrzeuge für Einzelpersonen und Gruppen" ] }

/-- The `locations` object literal of `config/locations.js`, as its list
of own (key, value) pairs in insertion order. -/
def locations : List (String × LocationRecord) :=
  [ ("arth-goldau", arthGoldauRecord)
  , ("luzern", luzernRecord)
  , ("zug", zugRecord) ]

/-- `allLocationSlugs = Object.keys(locations)`: the own keys in
insertion order. -/
def allLocationSlugs : List String := locations.map Prod.fst

/-- Property names a plain object literal inherits from
`Object.prototype`; accessing any of these on `locations` yields the
inherited (truthy) function or object, not `undefined`. -/
def objectPrototypeKeys : List String :=
  [ "constructor", "hasOwnProperty", "isPrototypeOf", "propertyIsEnumerable"
  , "toLocaleString", "toString", "valueOf"
  , "__defineGetter__", "__defineSetter__", "__lookupGetter__", "__lookupSetter__"
  , "__proto__" ]

/-- Result of the JavaScript property access `locations[slug]`: an own
entry, a member inherited from `Object.prototype`, or `undefined`. -/
inductive JSProp where
  | record : String × LocationRecord → JSProp
  | inherited : String → JSProp
  | undefined : JSProp
deriving DecidableEq

/-- `locations[slug]` with JavaScript property-lookup semantics: an own
key returns its record; otherwise the prototype chain of the plain object
literal is consulted before `undefined` is produced. -/
def getLocation (slug : String) : JSProp :=
  match locations.find? (fun p => p.1 == slug) with
  | some p => .record p
  | none => if slug ∈ objectPrototypeKeys then .inherited slug else .undefined

/-- JavaScript truthiness of a looked-up property: only `undefined` is
falsy here (inherited functions and objects are truthy). -/
def jsTruthyProp : JSProp → Bool
  | .undefined => false
  | _ => true

/-- Outcome of rendering `app/ort/[slug]/page.js` for a slug. -/
inductive PageResult where
  | notFound : PageResult
  | rendered : LocationRecord → PageResult
  | typeError : PageResult
deriving DecidableEq

/-- `LocationPage` from `app/ort/[slug]/page.js`:
`const location = locations[params.slug]; if (!location) notFound();`
then the page renders `location.h1`, `location.intro`,
`location.highlightPoints` and calls `location.h1.replace(...)`.
When the lookup produced a truthy non-record (a member inherited from
`Object.prototype`), `notFound()` is not called and
`location.h1.replace` throws a `TypeError` (`location.h1` is
`undefined`). -/
def LocationPage (slug : String) : PageResult :=
  let location := getLocation slug
  if jsTruthyProp location = false then .notFound
  else
    match location with
    | .record p => .rendered p.2
    | _ => .typeError

/-- A `{ slug }` object produced by `generateStaticParams`. -/
structure StaticParam where
  slug : String
deriving DecidableEq

/-- `generateStaticParams` from `app/ort/[slug]/page.js`:
`allLocationSlugs.map((slug) => ({ slug }))`. -/
def generateStaticParams : List StaticParam :=
  allLocationSlugs.map (fun slug => ⟨slug⟩)

/-- One `{ url, lastModified }` entry of the sitemap. -/
structure SitemapEntry where
  url : String
  lastModified : String
deriving DecidableEq

/-- `sitemap` from `app/sitemap.js`, with the impure
`new Date().toISOString()` passed in as `now`: the static routes followed
by one `/ort/<slug>` route per known slug, in insertion order. -/
def sitemap (now : String) : List SitemapEntry :=
  (["", "/flughafentransfer", "/business", "/kurierfahrten", "/preise", "/kontakt", "/ueber-uns"].map
      (fun route => ⟨"https://www.nova-taxi.com" ++ route, now⟩))
    ++ allLocationSlugs.map (fun slug => ⟨"https://www.nova-taxi.com" ++ "/ort/" ++ slug, now⟩)

/-- One `{ slug, title, description, h1 }` tuple of the SEO listing. -/
structure SeoLocation where
  slug : String
  title : String
  description : String
  h1 : String
deriving DecidableEq

/-- The body of `GET` in `app/api/seo/locations/route.js`:
`Object.entries(locations).map(([slug, data]) => ({ slug, title: data.title, description: data.metaDescription, h1: data.h1 }))`. -/
def seoLocationsGET : List SeoLocation :=
  locations.map (fun p => ⟨p.1, p.2.title, p.2.metaDescription, p.2.h1⟩)

lemma rawPrice_mono (d₁ d₂ : ℚ) (f : Bool) (h : d₁ ≤ d₂) :
    rawPrice d₁ f ≤ rawPrice d₂ f := by
  cases f <;>
    simp only [rawPrice, BASE_PRICE, PRICE_PER_KM, NIGHT_SURCHARGE_FACTOR,
      Bool.false_eq_true, if_false, if_true] <;>
    nlinarith

lemma rawPrice_night (d : ℚ) (hd : 0 < d) :
    rawPrice d false ≤ rawPrice d true := by
  simp only [rawPrice, BASE_PRICE, PRICE_PER_KM, NIGHT_SURCHARGE_FACTOR,
    Bool.false_eq_true, if_false, if_true]
  nlinarith

lemma estVal_le_estVal (a b : ℚ) (fa fb : Bool)
    (h : rawPrice a fa ≤ rawPrice b fb) : estVal a fa ≤ estVal b fb := by
  unfold estVal jsRound
  have hfl : (⌊rawPrice a fa * 20 + 1 / 2⌋ : ℤ) ≤ ⌊rawPrice b fb * 20 + 1 / 2⌋ :=
    Int.floor_le_floor (by linarith)
  have hc : ((⌊rawPrice a fa * 20 + 1 / 2⌋ : ℤ) : ℚ) ≤ ((⌊rawPrice b fb * 20 + 1 / 2⌋ : ℤ) : ℚ) := by
    exact_mod_cast hfl
  exact div_le_div_of_nonneg_right hc (by norm_num)

/-- Claim C1: for every finite `distanceKm > 0` and every flag, the
estimator returns `round(((6.6 + distanceKm * 4.2) * (if night then 1.2
else 1)) * 20) / 20` — base fare plus per-km charge, the night/weekend
multiplier applied before rounding, rounded to the nearest multiple of
`0.05`. -/
theorem estimator_formula (d : ℚ) (f : Bool) (hd : 0 < d) :
    estimateJS (.num d) f =
      some (.num (((jsRound (((6.6 + d * 4.2) * (if f then (1.2 : ℚ) else 1)) * 20) : ℤ) : ℚ) / 20)) := by
  rw [estimateJS_pos d f hd]
  cases f
  · simp only [estVal, rawPrice, BASE_PRICE, PRICE_PER_KM, NIGHT_SURCHARGE_FACTOR,
      Bool.false_eq_true, if_false]
    norm_num
  · simp only [estVal, rawPrice, BASE_PRICE, PRICE_PER_KM, NIGHT_SURCHARGE_FACTOR, if_true]

/-- Witness for C1 at `distanceKm = 10`, `isNightOrWeekend = false`. -/
theorem estimator_formula_witness :
    (0 : ℚ) < 10 ∧
      estimateJS (.num 10) false =
        some (.num (((jsRound (((6.6 + 10 * 4.2) * (if false then (1.2 : ℚ) else 1)) * 20) : ℤ) : ℚ) / 20)) :=
  ⟨by norm_num, estimator_formula 10 false (by norm_num)⟩

/-- Claim C2, counterexample: at `distanceKm = +Infinity` (not a finite
number greater than zero) the code does NOT yield the "no estimate"
outcome: `!Infinity` is false and `Infinity <= 0` is false, so the guard
passes and `Math.round(Infinity * 20) / 20 = Infinity` is produced. -/
theorem estimator_posInf_not_rejected :
    estimateJS .posInf false = some .posInf ∧ estimateJS .posInf false ≠ none := by
  have h : estimateJS .posInf false = some .posInf := by
    norm_num [estimateJS, jsFalsy, jsLe, jsAdd, jsMul, jsDiv, jsRoundN, PRICE_PER_KM, BASE_PRICE]
  exact ⟨h, by rw [h]; exact Option.some_ne_none _⟩

/-- Claim C2 as amended: for every `distanceKm` that is `NaN`,
`-Infinity`, zero or negative, the estimator yields the "no estimate"
outcome (`none`) and does not throw; `+Infinity`, however, passes the
guard and produces an infinite numeric value. -/
theorem estimator_rejects_invalid (d : JSNum) (f : Bool)
    (h : d = .nan ∨ d = .negInf ∨ ∃ q : ℚ, d = .num q ∧ q ≤ 0) :
    estimateJS d f = none := by
  rcases h with rfl | rfl | ⟨q, rfl, hq⟩
  · simp [estimateJS, jsFalsy]
  · simp [estimateJS, jsFalsy, jsLe]
  · have hle : jsLe (.num q) (.num 0) = true := by simp [jsLe, hq]
    simp [estimateJS, hle]

/-- Witness for amended C2 at `distanceKm = -5`. -/
theorem estimator_rejects_invalid_witness :
    estimateJS (.num (-5)) false = none :=
  estimator_rejects_invalid (.num (-5)) false (Or.inr (Or.inr ⟨-5, rfl, by norm_num⟩))

/-- Claim C3: for every slug in the known set, resolution returns the
entry whose key (slug) equals the input. -/
theorem resolve_known_slug (slug : String) (h : slug ∈ allLocationSlugs) :
    ∃ r : LocationRecord, getLocation slug = .record (slug, r) := by
  have hcase : slug = "arth-goldau" ∨ slug = "luzern" ∨ slug = "zug" := by
    simpa [allLocationSlugs, locations] using h
  rcases hcase with rfl | rfl | rfl
  · exact ⟨arthGoldauRecord, rfl⟩
  · exact ⟨luzernRecord, rfl⟩
  · exact ⟨zugRecord, rfl⟩

/-- Witness for C3 at slug `"luzern"`. -/
theorem resolve_known_slug_witness :
    "luzern" ∈ allLocationSlugs ∧ ∃ r, getLocation "luzern" = .record ("luzern", r) :=
  ⟨by decide, resolve_known_slug "luzern" (by decide)⟩

/-- Claim C4 (code bug): the claim says every string outside the known
set — naming `"toString"` explicitly — resolves to "not found".  In the
code, `locations["toString"]` returns the member inherited from
`Object.prototype`, which is truthy, so `notFound()` is skipped and the
page render throws a `TypeError` at `location.h1.replace(...)` instead
of producing the not-found outcome. -/
theorem resolve_toString_bypasses_notFound :
    getLocation "toString" = .inherited "toString" ∧
      LocationPage "toString" = .typeError ∧
      LocationPage "toString" ≠ .notFound := by
  refine ⟨by decide, by decide, by decide⟩

/-- Claim C5: the estimator reproduces the spec's worked examples,
`estimate(10, false) = 48.60` and `estimate(10, true) = 58.30`. -/
theorem estimator_worked_examples :
    estimateJS (.num 10) false = some (.num 48.6) ∧
      estimateJS (.num 10) true = some (.num 58.3) := by
  constructor
  · rw [estimateJS_pos 10 false (by norm_num)]
    norm_num [estVal, rawPrice, jsRound, BASE_PRICE, PRICE_PER_KM]
  · rw [estimateJS_pos 10 true (by norm_num)]
    norm_num [estVal, rawPrice, jsRound, BASE_PRICE, PRICE_PER_KM, NIGHT_SURCHARGE_FACTOR]

/-- Claim C6: for every valid (finite, positive) `distanceKm` and every
flag value, the returned amount is an exact multiple of `0.05`. -/
theorem estimator_multiple_of_five_cents (d : ℚ) (f : Bool) (hd : 0 < d) :
    ∃ (r : ℚ) (k : ℤ), estimateJS (.num d) f = some (.num r) ∧ r = (k : ℚ) * 0.05 := by
  refine ⟨estVal d f, jsRound (rawPrice d f * 20), estimateJS_pos d f hd, ?_⟩
  unfold estVal
  norm_num
  ring

/-- Witness for C6 at `distanceKm = 10`, `isNightOrWeekend = true`. -/
theorem estimator_multiple_of_five_cents_witness :
    (0 : ℚ) < 10 ∧
      ∃ (r : ℚ) (k : ℤ), estimateJS (.num 10) true = some (.num r) ∧ r = (k : ℚ) * 0.05 :=
  ⟨by norm_num, estimator_multiple_of_five_cents 10 true (by norm_num)⟩

/-- Claim C7: the set of known slugs is fixed and finite with exactly
three entries, and the enumerations used for route/index generation
(static params, sitemap) list exactly these slugs in insertion order. -/
theorem locations_fixed_enumeration (now : String) :
    locations.length = 3 ∧
      allLocationSlugs = ["arth-goldau", "luzern", "zug"] ∧
      generateStaticParams.map StaticParam.slug = ["arth-goldau", "luzern", "zug"] ∧
      (sitemap now).map SitemapEntry.url =
        [ "https://www.nova-taxi.com"
        , "https://www.nova-taxi.com/flughafentransfer"
        , "https://www.nova-taxi.com/business"
        , "https://www.nova-taxi.com/kurierfahrten"
        , "https://www.nova-taxi.com/preise"
        , "https://www.nova-taxi.com/kontakt"
        , "https://www.nova-taxi.com/ueber-uns"
        , "https://www.nova-taxi.com/ort/arth-goldau"
        , "https://www.nova-taxi.com/ort/luzern"
        , "https://www.nova-taxi.com/ort/zug" ] :=
  ⟨rfl, rfl, rfl, rfl⟩

/-- Witness for C7 at a concrete timestamp. -/
theorem locations_fixed_enumeration_witness :
    locations.length = 3 ∧
      allLocationSlugs = ["arth-goldau", "luzern", "zug"] ∧
      generateStaticParams.map StaticParam.slug = ["arth-goldau", "luzern", "zug"] ∧
      (sitemap "2026-10-12T00:00:00.000Z").map SitemapEntry.url =
        [ "https://www.nova-taxi.com"
        , "https://www.nova-taxi.com/flughafentransfer"
        , "https://www.nova-taxi.com/business"
        , "https://www.nova-taxi.com/kurierfahrten"
        , "https://www.nova-taxi.com/preise"
        , "https://www.nova-taxi.com/kontakt"
        , "https://www.nova-taxi.com/ueber-uns"
        , "https://www.nova-taxi.com/ort/arth-goldau"
        , "https://www.nova-taxi.com/ort/luzern"
        , "https://www.nova-taxi.com/ort/zug" ] :=
  locations_fixed_enumeration "2026-10-12T00:00:00.000Z"

/-- Claim C8: the SEO listing endpoint returns, for every record in the
location table and only those, the `{slug, title, description = metaDescription, h1}`
tuple — one entry per known slug, a pure projection with no records
added, dropped, or altered. -/
theorem seo_locations_projection :
    seoLocationsGET.length = locations.length ∧
      (∀ (sl : String) (r : LocationRecord), (sl, r) ∈ locations →
        (⟨sl, r.title, r.metaDescription, r.h1⟩ : SeoLocation) ∈ seoLocationsGET) ∧
      (∀ e ∈ seoLocationsGET, ∃ (sl : String) (r : LocationRecord),
        (sl, r) ∈ locations ∧ e = ⟨sl, r.title, r.metaDescription, r.h1⟩) := by
  refine ⟨rfl, ?_, ?_⟩
  · intro sl r h
    exact List.mem_map.mpr ⟨(sl, r), h, rfl⟩
  · intro e he
    obtain ⟨p, hp, rfl⟩ := List.mem_map.mp he
    exact ⟨p.1, p.2, hp, rfl⟩

/-- Witness for C8: the `luzern` record's projection is in the listing. -/
theorem seo_locations_projection_witness :
    (⟨"luzern", luzernRecord.title, luzernRecord.metaDescription, luzernRecord.h1⟩ : SeoLocation)
      ∈ seoLocationsGET :=
  seo_locations_projection.2.1 "luzern" luzernRecord (by simp [locations])

/-- Claim C9: the estimator is deterministic — two `handleSubmit`
invocations from states with identical inputs (`distance`, `isNight`)
write identical `estimatedPrice` values, independently of any prior
`estimatedPrice` (no hidden state). -/
theorem handleSubmit_deterministic (s₁ s₂ : CalcState)
    (hd : s₁.distance = s₂.distance) (hn : s₁.isNight = s₂.isNight) :
    (handleSubmit s₁).estimatedPrice = (handleSubmit s₂).estimatedPrice := by
  rw [handleSubmit_estimatedPrice, handleSubmit_estimatedPrice, hd, hn]

/-- Witness for C9: identical inputs, different prior display state. -/
theorem handleSubmit_deterministic_witness :
    (handleSubmit ⟨.num 10, false, none⟩).estimatedPrice
      = (handleSubmit ⟨.num 10, false, some (.num 99)⟩).estimatedPrice :=
  handleSubmit_deterministic ⟨.num 10, false, none⟩ ⟨.num 10, false, some (.num 99)⟩ rfl rfl

/-- Claim C10: the estimator is monotone — for valid distances
`0 < d₁ ≤ d₂` and a fixed flag the estimate does not decrease, and for a
fixed valid distance the night/weekend estimate is at least the day
estimate. -/
theorem estimator_monotone (d₁ d₂ d : ℚ) (f : Bool)
    (h₁ : 0 < d₁) (h₁₂ : d₁ ≤ d₂) (hd : 0 < d) :
    (∃ r₁ r₂ : ℚ, estimateJS (.num d₁) f = some (.num r₁) ∧
        estimateJS (.num d₂) f = some (.num r₂) ∧ r₁ ≤ r₂) ∧
      (∃ s₁ s₂ : ℚ, estimateJS (.num d) false = some (.num s₁) ∧
        estimateJS (.num d) true = some (.num s₂) ∧ s₁ ≤ s₂) := by
  refine ⟨⟨estVal d₁ f, estVal d₂ f, estimateJS_pos d₁ f h₁,
      estimateJS_pos d₂ f (lt_of_lt_of_le h₁ h₁₂),
      estVal_le_estVal d₁ d₂ f f (rawPrice_mono d₁ d₂ f h₁₂)⟩,
    ⟨estVal d false, estVal d true, estimateJS_pos d false hd,
      estimateJS_pos d true hd,
      estVal_le_estVal d d false true (rawPrice_night d hd)⟩⟩

/-- Witness for C10 at `d₁ = 1`, `d₂ = 2`, `d = 3`, flag `false`. -/
theorem estimator_monotone_witness :
    (0 : ℚ) < 1 ∧ (1 : ℚ) ≤ 2 ∧ (0 : ℚ) < 3 ∧
      ((∃ r₁ r₂ : ℚ, estimateJS (.num 1) false = some (.num r₁) ∧
          estimateJS (.num 2) false = some (.num r₂) ∧ r₁ ≤ r₂) ∧
        (∃ s₁ s₂ : ℚ, estimateJS (.num 3) false = some (.num s₁) ∧
          estimateJS (.num 3) true = some (.num s₂) ∧ s₁ ≤ s₂)) :=
  ⟨by norm_num, by norm_num, by norm_num,
    estimator_monotone 1 2 3 false (by norm_num) (by norm_num) (by norm_num)⟩

end NovaTaxi
